import Mathlib

/-
Verification of the workspace action classes in
src/vs/workbench/browser/actions/workspaceActions.ts.

Each action's `run` method is a promise chain over injected collaborator
services. We embed each `run` as a pure function from its oracle inputs
(the current workbench state, the workspace snapshot, picker results) to
the ordered list of collaborator calls it issues, paired with the value
its promise resolves to where that value matters. Promise chaining by
`.then` is strictly sequential, so a call appears in the trace only after
every earlier call's promise has resolved; `seqEvents` makes this
issue/resolve interleaving explicit for the temporal claim.
-/

namespace WorkspaceActions

/-- Modelled from the spec: a location handle (URI-like) identifying a file or folder. -/
structure URI where
  value : String
deriving DecidableEq

/-- Modelled from the spec: the workspace state enum, EMPTY, FOLDER or WORKSPACE. -/
inductive WorkbenchState where
  | EMPTY
  | FOLDER
  | WORKSPACE
deriving DecidableEq

/-- Modelled from the spec: one workspace root folder, identified by a location handle
together with its display name and position. -/
structure IWorkspaceFolder where
  uri : URI
  name : String
  index : Nat
deriving DecidableEq

/-- Modelled from the spec: the workspace aggregate, an ordered folder list plus the
optional configuration-file location. -/
structure IWorkspace where
  folders : List IWorkspaceFolder
  configuration : Option URI
deriving DecidableEq

/-- Modelled from the spec: folder data handed to workspace creation, the location only,
with the optional display name left unset by the actions in this file. -/
structure IWorkspaceFolderCreationData where
  uri : URI
  name : Option String
deriving DecidableEq

/-- Modelled from the spec: opaque telemetry payload forwarded to the dialog pickers. -/
structure ITelemetryData where
  payload : String
deriving DecidableEq

/-- Modelled from the spec: options given to the dialog-service pickers; either field may
be left unset by a caller. -/
structure IPickAndOpenOptions where
  forceNewWindow : Option Bool
  telemetryExtraData : Option ITelemetryData
deriving DecidableEq

/-- Modelled from the spec: the input handed to the editor-open operation. -/
structure IResourceInput where
  resource : URI
deriving DecidableEq

/-- Modelled from the spec: identifier of a (new) workspace, its id and the location of
its configuration file. -/
structure IWorkspaceIdentifier where
  id : String
  configPath : URI
deriving DecidableEq

/-- Modelled from the spec: one target handed to the open-window operation, a location
plus an optional hint whether it is a file or a folder path. -/
structure IURIToOpen where
  uri : URI
  typeHint : Option String
deriving DecidableEq

/-- Modelled from the spec: options of the open-window operation. -/
structure IOpenSettings where
  forceNewWindow : Option Bool
deriving DecidableEq

/-- Modelled from the spec: command identifiers dispatched through the command service
(defined in workspaceCommands.ts, outside the supplied slice). -/
inductive CommandId where
  | ADD_ROOT_FOLDER_COMMAND_ID
  | PICK_WORKSPACE_FOLDER_COMMAND_ID
deriving DecidableEq

/-- Modelled from the spec: localization resolves a key to display text; we take the
English default message, as the supplied slice always provides it inline. -/
def localize (_key : String) (defaultMessage : String) : String :=
  defaultMessage

/-- One collaborator-service call issued by an action, with the arguments the source
passes to it. -/
inductive ServiceCall where
  | pickFileAndOpen (options : IPickAndOpenOptions)
  | pickFolderAndOpen (options : IPickAndOpenOptions)
  | pickFileFolderAndOpen (options : IPickAndOpenOptions)
  | pickWorkspaceAndOpen (options : IPickAndOpenOptions)
  | executeCommand (commandId : CommandId)
  | removeFolders (foldersToRemove : List URI)
  | pickNewWorkspacePath
  | createAndEnterWorkspace (folders : List IWorkspaceFolderCreationData) (path : URI)
  | saveAndEnterWorkspace (path : URI)
  | info (message : String)
  | closeWorkspace
  | openEditor (editor : IResourceInput)
  | createUntitledWorkspace (folders : List IWorkspaceFolder) (remoteAuthority : Option String)
  | copyWorkspaceSettings (toWorkspace : IWorkspaceIdentifier)
  | openWindow (uris : List IURIToOpen) (options : IOpenSettings)
deriving DecidableEq

/-- True exactly on informational-notification calls. -/
def ServiceCall.isInfo : ServiceCall → Bool
  | ServiceCall.info _ => true
  | _ => false

/-- True exactly on window-service close-workspace calls. -/
def ServiceCall.isCloseWorkspace : ServiceCall → Bool
  | ServiceCall.closeWorkspace => true
  | _ => false

/-- Number of calls in a trace satisfying a predicate. -/
def countCalls (p : ServiceCall → Bool) (trace : List ServiceCall) : Nat :=
  (trace.filter p).length

/-- An event in the issue/resolve view of a trace. -/
inductive Event where
  | issued (call : ServiceCall)
  | resolved (call : ServiceCall)
deriving DecidableEq

/-- Expands a call trace into issue/resolve events. Every chain in this source file is
sequential promise composition by then-continuations, so each call is issued only after
the previous call's promise resolved; this expansion states that interleaving. -/
def seqEvents : List ServiceCall → List Event
  | [] => []
  | call :: rest => Event.issued call :: Event.resolved call :: seqEvents rest

namespace OpenFileAction

/-- Static ID of OpenFileAction (workspaceActions.ts line 21). -/
def ID : String := "workbench.action.files.openFile"

/-- Embeds OpenFileAction.run (lines 32..34): delegates to pickFileAndOpen with
forceNewWindow false and the telemetry payload, returning the dialog future unchanged. -/
def run {α : Type} (data : Option ITelemetryData) (dialogResult : α) :
    List ServiceCall × α :=
  ([ServiceCall.pickFileAndOpen { forceNewWindow := some false, telemetryExtraData := data }],
   dialogResult)

end OpenFileAction

namespace OpenFolderAction

/-- Static ID of OpenFolderAction (line 39). -/
def ID : String := "workbench.action.files.openFolder"

/-- Embeds OpenFolderAction.run (lines 50..52). -/
def run {α : Type} (data : Option ITelemetryData) (dialogResult : α) :
    List ServiceCall × α :=
  ([ServiceCall.pickFolderAndOpen { forceNewWindow := some false, telemetryExtraData := data }],
   dialogResult)

end OpenFolderAction

namespace OpenFileFolderAction

/-- Static ID of OpenFileFolderAction (line 57). -/
def ID : String := "workbench.action.files.openFileFolder"

/-- Embeds OpenFileFolderAction.run (lines 68..70). -/
def run {α : Type} (data : Option ITelemetryData) (dialogResult : α) :
    List ServiceCall × α :=
  ([ServiceCall.pickFileFolderAndOpen { forceNewWindow := some false, telemetryExtraData := data }],
   dialogResult)

end OpenFileFolderAction

namespace AddRootFolderAction

/-- Static ID of AddRootFolderAction (line 75). -/
def ID : String := "workbench.action.addRootFolder"

/-- Embeds AddRootFolderAction.run (lines 86..88): pure pass-through to the command
service. -/
def run {α : Type} (commandResult : α) : List ServiceCall × α :=
  ([ServiceCall.executeCommand CommandId.ADD_ROOT_FOLDER_COMMAND_ID], commandResult)

end AddRootFolderAction

namespace GlobalRemoveRootFolderAction

/-- Static ID of GlobalRemoveRootFolderAction (line 93). -/
def ID : String := "workbench.action.removeRootFolder"

/-- Embeds GlobalRemoveRootFolderAction.run (lines 106..121). `pickedFolder` is the
result the pick-workspace-folder command would resolve with, consumed only on the
branch that dispatches it. -/
def run (state : WorkbenchState) (pickedFolder : Option IWorkspaceFolder) :
    List ServiceCall × Bool :=
  if state = WorkbenchState.WORKSPACE ∨ state = WorkbenchState.FOLDER then
    match pickedFolder with
    | some folder =>
        ([ServiceCall.executeCommand CommandId.PICK_WORKSPACE_FOLDER_COMMAND_ID,
          ServiceCall.removeFolders [folder.uri]], true)
    | none =>
        ([ServiceCall.executeCommand CommandId.PICK_WORKSPACE_FOLDER_COMMAND_ID], true)
  else
    ([], true)

end GlobalRemoveRootFolderAction

namespace SaveWorkspaceAsAction

/-- Static ID of SaveWorkspaceAsAction (line 126). -/
def ID : String := "workbench.action.saveWorkspaceAs"

/-- Embeds SaveWorkspaceAsAction.run (lines 139..153). `pickedConfigPath` is the result
the pickNewWorkspacePath collaborator resolves with; `state` and `workspace` are read
from the workspace context service inside the continuation. -/
def run (pickedConfigPath : Option URI) (state : WorkbenchState)
    (workspace : IWorkspace) : List ServiceCall :=
  ServiceCall.pickNewWorkspacePath ::
    match pickedConfigPath with
    | some configPathUri =>
        match state with
        | WorkbenchState.EMPTY | WorkbenchState.FOLDER =>
            [ServiceCall.createAndEnterWorkspace
              (workspace.folders.map
                (fun folder => ({ uri := folder.uri, name := none } : IWorkspaceFolderCreationData)))
              configPathUri]
        | WorkbenchState.WORKSPACE =>
            [ServiceCall.saveAndEnterWorkspace configPathUri]
    | none => []

end SaveWorkspaceAsAction

namespace OpenWorkspaceAction

/-- Static ID of OpenWorkspaceAction (line 158). -/
def ID : String := "workbench.action.openWorkspace"

/-- Embeds OpenWorkspaceAction.run (lines 169..171): delegates to pickWorkspaceAndOpen
with an options object carrying only the telemetry payload. -/
def run {α : Type} (data : Option ITelemetryData) (dialogResult : α) :
    List ServiceCall × α :=
  ([ServiceCall.pickWorkspaceAndOpen { forceNewWindow := none, telemetryExtraData := data }],
   dialogResult)

end OpenWorkspaceAction

namespace CloseWorkspaceAction

/-- Static ID of CloseWorkspaceAction (line 176). -/
def ID : String := "workbench.action.closeFolder"

/-- Embeds CloseWorkspaceAction.run (lines 189..197). -/
def run (state : WorkbenchState) : List ServiceCall :=
  if state = WorkbenchState.EMPTY then
    [ServiceCall.info
      (localize "noWorkspaceOpened"
        "There is currently no workspace opened in this instance to close.")]
  else
    [ServiceCall.closeWorkspace]

end CloseWorkspaceAction

/-- The instance state of OpenWorkspaceConfigFileAction: the Action base fields the
class touches. -/
structure OpenWorkspaceConfigFileAction where
  id : String
  label : String
  enabled : Bool
deriving DecidableEq

namespace OpenWorkspaceConfigFileAction

/-- Static ID of OpenWorkspaceConfigFileAction (line 202). -/
def ID : String := "workbench.action.openWorkspaceConfigFile"

/-- Embeds the OpenWorkspaceConfigFileAction constructor (lines 205..214): enabled is
set once, to whether the workspace seen at construction has a configuration location. -/
def make (id label : String) (workspaceAtConstruction : IWorkspace) :
    OpenWorkspaceConfigFileAction :=
  { id := id, label := label,
    enabled := workspaceAtConstruction.configuration.isSome }

/-- Embeds OpenWorkspaceConfigFileAction.run (lines 216..222): re-reads the current
configuration location and opens it if present. The instance is returned unchanged,
as the method body contains no assignment to it. -/
def run (self : OpenWorkspaceConfigFileAction) (currentWorkspace : IWorkspace) :
    OpenWorkspaceConfigFileAction × List ServiceCall :=
  (self,
   match currentWorkspace.configuration with
   | some configuration => [ServiceCall.openEditor { resource := configuration }]
   | none => [])

end OpenWorkspaceConfigFileAction

namespace DuplicateWorkspaceInNewWindowAction

/-- Static ID of DuplicateWorkspaceInNewWindowAction (line 227). -/
def ID : String := "workbench.action.duplicateWorkspaceInNewWindow"

/-- Embeds DuplicateWorkspaceInNewWindowAction.run (lines 241..250). `remoteAuthority`
is the value read from the window configuration snapshot and `newWorkspace` the result
the createUntitledWorkspace collaborator resolves with. -/
def run (workspace : IWorkspace) (remoteAuthority : Option String)
    (newWorkspace : IWorkspaceIdentifier) : List ServiceCall :=
  [ServiceCall.createUntitledWorkspace workspace.folders remoteAuthority,
   ServiceCall.copyWorkspaceSettings newWorkspace,
   ServiceCall.openWindow [{ uri := newWorkspace.configPath, typeHint := some "file" }]
     { forceNewWindow := some true }]

end DuplicateWorkspaceInNewWindowAction

/-- The static IDs of the ten action classes, in source order. -/
def actionIDs : List String :=
  [OpenFileAction.ID, OpenFolderAction.ID, OpenFileFolderAction.ID, AddRootFolderAction.ID,
   GlobalRemoveRootFolderAction.ID, SaveWorkspaceAsAction.ID, OpenWorkspaceAction.ID,
   CloseWorkspaceAction.ID, OpenWorkspaceConfigFileAction.ID,
   DuplicateWorkspaceInNewWindowAction.ID]

/-- C1: for save-workspace-as, a cancelled path picker leads to no create or save call;
with a chosen path P and state EMPTY or FOLDER, createAndEnterWorkspace receives the
current folders mapped to uri-only objects, in order, together with P; with state
WORKSPACE, saveAndEnterWorkspace receives P alone and no folder list. -/
theorem saveWorkspaceAs_branches (workspace : IWorkspace) (P : URI) :
    (∀ state, SaveWorkspaceAsAction.run none state workspace =
      [ServiceCall.pickNewWorkspacePath]) ∧
    SaveWorkspaceAsAction.run (some P) WorkbenchState.EMPTY workspace =
      [ServiceCall.pickNewWorkspacePath,
       ServiceCall.createAndEnterWorkspace
         (workspace.folders.map
           (fun folder => ({ uri := folder.uri, name := none } : IWorkspaceFolderCreationData)))
         P] ∧
    SaveWorkspaceAsAction.run (some P) WorkbenchState.FOLDER workspace =
      [ServiceCall.pickNewWorkspacePath,
       ServiceCall.createAndEnterWorkspace
         (workspace.folders.map
           (fun folder => ({ uri := folder.uri, name := none } : IWorkspaceFolderCreationData)))
         P] ∧
    SaveWorkspaceAsAction.run (some P) WorkbenchState.WORKSPACE workspace =
      [ServiceCall.pickNewWorkspacePath, ServiceCall.saveAndEnterWorkspace P] :=
  ⟨fun _ => rfl, rfl, rfl, rfl⟩

/-- C2: for remove-root-folder, in state EMPTY run resolves to true dispatching no pick
command and calling no removeFolders; in states FOLDER and WORKSPACE the pick command is
dispatched, a picked folder F leads to removeFolders with exactly the one-element list
of its uri, and an empty pick leads to no mutation call. -/
theorem removeRootFolder_branches (F : IWorkspaceFolder)
    (pick : Option IWorkspaceFolder) :
    GlobalRemoveRootFolderAction.run WorkbenchState.EMPTY pick = ([], true) ∧
    GlobalRemoveRootFolderAction.run WorkbenchState.FOLDER (some F) =
      ([ServiceCall.executeCommand CommandId.PICK_WORKSPACE_FOLDER_COMMAND_ID,
        ServiceCall.removeFolders [F.uri]], true) ∧
    GlobalRemoveRootFolderAction.run WorkbenchState.WORKSPACE (some F) =
      ([ServiceCall.executeCommand CommandId.PICK_WORKSPACE_FOLDER_COMMAND_ID,
        ServiceCall.removeFolders [F.uri]], true) ∧
    GlobalRemoveRootFolderAction.run WorkbenchState.FOLDER none =
      ([ServiceCall.executeCommand CommandId.PICK_WORKSPACE_FOLDER_COMMAND_ID], true) ∧
    GlobalRemoveRootFolderAction.run WorkbenchState.WORKSPACE none =
      ([ServiceCall.executeCommand CommandId.PICK_WORKSPACE_FOLDER_COMMAND_ID], true) :=
  ⟨rfl, rfl, rfl, rfl, rfl⟩

/-- C3: for close-workspace, in state EMPTY exactly one informational notification is
emitted and the window close-workspace operation is never invoked; in states FOLDER and
WORKSPACE the close-workspace operation is invoked exactly once and no notification is
emitted. -/
theorem closeWorkspace_branches :
    countCalls ServiceCall.isInfo (CloseWorkspaceAction.run WorkbenchState.EMPTY) = 1 ∧
    countCalls ServiceCall.isCloseWorkspace (CloseWorkspaceAction.run WorkbenchState.EMPTY) = 0 ∧
    countCalls ServiceCall.isCloseWorkspace (CloseWorkspaceAction.run WorkbenchState.FOLDER) = 1 ∧
    countCalls ServiceCall.isInfo (CloseWorkspaceAction.run WorkbenchState.FOLDER) = 0 ∧
    countCalls ServiceCall.isCloseWorkspace (CloseWorkspaceAction.run WorkbenchState.WORKSPACE) = 1 ∧
    countCalls ServiceCall.isInfo (CloseWorkspaceAction.run WorkbenchState.WORKSPACE) = 0 :=
  ⟨rfl, rfl, rfl, rfl, rfl, rfl⟩

/-- C4: for open-workspace-config-file, construction with no configuration location
yields enabled false, construction with one yields enabled true; run re-reads the
current configuration location independently of the instance: if present it issues
exactly one editor-open call with that location as resource, if absent it issues no
call. -/
theorem openWorkspaceConfigFile_spec (id label : String)
    (folders : List IWorkspaceFolder) (C : URI) (a : OpenWorkspaceConfigFileAction) :
    (OpenWorkspaceConfigFileAction.make id label
      { folders := folders, configuration := none }).enabled = false ∧
    (OpenWorkspaceConfigFileAction.make id label
      { folders := folders, configuration := some C }).enabled = true ∧
    (OpenWorkspaceConfigFileAction.run a
      { folders := folders, configuration := some C }).2 =
      [ServiceCall.openEditor { resource := C }] ∧
    (OpenWorkspaceConfigFileAction.run a
      { folders := folders, configuration := none }).2 = [] :=
  ⟨rfl, rfl, rfl, rfl⟩

/-- C5: for duplicate-workspace-in-new-window, for every folder list, remote authority
and created workspace, the settings-copy promise resolves strictly before the
open-window call is issued, and the open-window call receives the new workspace's
configPath with typeHint file and forceNewWindow true. -/
theorem duplicateWorkspace_copy_before_open (workspace : IWorkspace)
    (remoteAuthority : Option String) (newWorkspace : IWorkspaceIdentifier) :
    DuplicateWorkspaceInNewWindowAction.run workspace remoteAuthority newWorkspace =
      [ServiceCall.createUntitledWorkspace workspace.folders remoteAuthority,
       ServiceCall.copyWorkspaceSettings newWorkspace,
       ServiceCall.openWindow
         [{ uri := newWorkspace.configPath, typeHint := some "file" }]
         { forceNewWindow := some true }] ∧
    (3 : Nat) < 4 ∧
    (seqEvents (DuplicateWorkspaceInNewWindowAction.run workspace remoteAuthority
        newWorkspace)).get? 3 =
      some (Event.resolved (ServiceCall.copyWorkspaceSettings newWorkspace)) ∧
    (seqEvents (DuplicateWorkspaceInNewWindowAction.run workspace remoteAuthority
        newWorkspace)).get? 4 =
      some (Event.issued (ServiceCall.openWindow
        [{ uri := newWorkspace.configPath, typeHint := some "file" }]
        { forceNewWindow := some true })) :=
  ⟨rfl, by decide, rfl, rfl⟩

/-- C6: the open-file, open-folder and open-file-or-folder actions each issue exactly
one call to their respective dialog entry point with options forceNewWindow false and
the telemetry payload passed to run, and return the dialog future unchanged. -/
theorem openFileFolderActions_passthrough {α : Type} (data : Option ITelemetryData)
    (dialogResult : α) :
    OpenFileAction.run data dialogResult =
      ([ServiceCall.pickFileAndOpen
        { forceNewWindow := some false, telemetryExtraData := data }], dialogResult) ∧
    OpenFolderAction.run data dialogResult =
      ([ServiceCall.pickFolderAndOpen
        { forceNewWindow := some false, telemetryExtraData := data }], dialogResult) ∧
    OpenFileFolderAction.run data dialogResult =
      ([ServiceCall.pickFileFolderAndOpen
        { forceNewWindow := some false, telemetryExtraData := data }], dialogResult) :=
  ⟨rfl, rfl, rfl⟩

/-- C7: the ten static action IDs are non-empty, pairwise distinct, and are exactly the
ten command identifiers listed in the external-interface section of the spec. -/
theorem actionIDs_spec :
    actionIDs.all (fun s => !s.isEmpty) = true ∧
    actionIDs.Nodup ∧
    actionIDs =
      ["workbench.action.files.openFile", "workbench.action.files.openFolder",
       "workbench.action.files.openFileFolder", "workbench.action.addRootFolder",
       "workbench.action.removeRootFolder", "workbench.action.saveWorkspaceAs",
       "workbench.action.openWorkspace", "workbench.action.closeFolder",
       "workbench.action.openWorkspaceConfigFile",
       "workbench.action.duplicateWorkspaceInNewWindow"] := by
  refine ⟨rfl, ?_, rfl⟩
  decide

/-- C8: the remove-root-folder run resolves to true on every non-failing path, for every
workbench state and every pick outcome. -/
theorem removeRootFolder_resolves_true (state : WorkbenchState)
    (pick : Option IWorkspaceFolder) :
    (GlobalRemoveRootFolderAction.run state pick).2 = true := by
  cases state <;> cases pick <;> rfl

/-- C9: the open-workspace-config-file enabled flag is set only at construction: run
returns the instance unchanged and its call trace does not depend on the instance at
all, so the flag can be stale — a concrete instance constructed with enabled false still
opens the editor when a configuration is present at run time, and one constructed with
enabled true still no-ops when it is absent. -/
theorem openWorkspaceConfigFile_enabled_frame (a b : OpenWorkspaceConfigFileAction)
    (current : IWorkspace) (C : URI) :
    (OpenWorkspaceConfigFileAction.run a current).1 = a ∧
    (OpenWorkspaceConfigFileAction.run a current).2 =
      (OpenWorkspaceConfigFileAction.run b current).2 ∧
    (OpenWorkspaceConfigFileAction.make "i" "l"
      { folders := [], configuration := none }).enabled = false ∧
    (OpenWorkspaceConfigFileAction.run
      (OpenWorkspaceConfigFileAction.make "i" "l"
        { folders := [], configuration := none })
      { folders := [], configuration := some C }).2 =
      [ServiceCall.openEditor { resource := C }] ∧
    (OpenWorkspaceConfigFileAction.make "i" "l"
      { folders := [], configuration := some C }).enabled = true ∧
    (OpenWorkspaceConfigFileAction.run
      (OpenWorkspaceConfigFileAction.make "i" "l"
        { folders := [], configuration := some C })
      { folders := [], configuration := none }).2 = [] :=
  ⟨rfl, rfl, rfl, rfl, rfl, rfl⟩

/-- C10: the open-workspace action passes the dialog service an options object with only
the telemetry payload set and forceNewWindow left unset, unlike the file and folder open
actions which set forceNewWindow false. -/
theorem openWorkspace_no_forceNewWindow {α : Type} (data : Option ITelemetryData)
    (dialogResult : α) :
    OpenWorkspaceAction.run data dialogResult =
      ([ServiceCall.pickWorkspaceAndOpen
        { forceNewWindow := none, telemetryExtraData := data }], dialogResult) ∧
    (OpenFileAction.run data dialogResult).1 =
      [ServiceCall.pickFileAndOpen
        { forceNewWindow := some false, telemetryExtraData := data }] :=
  ⟨rfl, rfl⟩

end WorkspaceActions
